import Mathlib

/-!
Verification of the Reward Rate Resolution Engine of the card-cashback demo
(src/app.py).  The engine is `find_best_rate_for_card` (app.py lines 20-69)
plus the ranking step of `main` (app.py lines 125-162).  Cards and reward
rules are pandas rows; we embed them as Lean structures, with `Option`
marking the cells that the code treats as possibly missing (NaN) and with
Python floats embedded as rationals extended by a NaN element.

Modelling notes, referenced from the individual definitions:
- `str.contains(merchant_name, case=False, na=False)` (app.py lines 42-43)
  compiles `merchant_name` as a regular expression (pandas default
  `regex=True`) before any row is examined.  The embedding models this
  with a fragment of the Python re language: `compilePat` either yields a
  regex of the fragment (literal text, groups, alternation, the star,
  plus and question quantifiers with the lazy marker, the dot, escaped
  metacharacters, and the character-class escapes), yields the `re.error`
  exception — for example at the unbalanced pattern ( — or reports the
  pattern as outside the fragment (bracket classes, curly repetitions,
  anchors, extension groups and the remaining escapes).  No statement
  below evaluates the model on an outside-fragment pattern: the general
  theorems restrict the merchant name to metacharacter-free patterns or
  carry the compilation outcome as a hypothesis, and every concrete
  example uses a pattern inside the fragment.  Matching is by Brzozowski
  derivatives, with the IGNORECASE comparison on basic latin letters.
- `sort_values` (app.py lines 48, 57, 156): the pandas default quicksort
  is numpy introsort, which is plain — hence stable — insertion sort for
  arrays of fewer than 17 elements, and pandas reverses both before and
  after the argsort for descending order, preserving that stability.  The
  embedding uses the stable `List.insertionSort` throughout.  Of the
  statements below, only the ranking ones rely on tie order, and the
  ranking frame of `main` holds at most the three hard-coded cards; the
  Tier-1/Tier-2 tie-break on rule sheets with 17 or more tied matches is
  deliberately left unsettled (claim C3).
- Python lower/upper casing is modelled on the basic latin range by
  `Char.toLower` / `Char.toUpper`.
-/

deriving instance DecidableEq for Except

namespace CardCashback

/-- Embedding of a Python float cell: a finite value (as an exact rational)
or the IEEE NaN that pandas uses for a missing numeric cell.  No claim
under verification depends on binary rounding, so finite values are kept
exact. -/
inductive PyFloat where
  | num (q : ℚ)
  | nan
deriving DecidableEq

/-- One row of the `cards` sheet as read by `main` / passed to
`find_best_rate_for_card`.  `card_id := none` models a row in which the
`card_id` key is absent (reading it raises KeyError, app.py line 28);
`general_rate_percent := none` models a row whose index has no
`general_rate_percent` key at all (the `in` test of app.py line 63 fails),
while `some PyFloat.nan` models the key being present with a NaN value. -/
structure Card where
  card_id : Option String
  bank : String
  card_name : String
  display_name : String
  general_rate_percent : Option PyFloat
deriving DecidableEq

/-- One row of the `reward_rules` sheet.  `rule_name := none` and
`merchant_keywords := none` model NaN cells: the code guards both, with
`na=False` (app.py line 55) and `fillna("")` (app.py line 38). -/
structure RewardRule where
  card_id : String
  rule_name : Option String
  spend_channel : String
  merchant_category : String
  merchant_keywords : Option String
  priority : Int
  rate_percent : PyFloat
deriving DecidableEq

/-- Lowercasing of a string, character by character (model of Python
str.lower, exact on the basic latin range handled by `Char.toLower`). -/
def strLower (s : String) : String :=
  String.mk (s.data.map Char.toLower)

/-- Uppercasing of a string, character by character (model of Python
str.upper on the basic latin range). -/
def strUpper (s : String) : String :=
  String.mk (s.data.map Char.toUpper)

/-- Is `pat` a prefix of the second list? -/
def prefAt : List Char → List Char → Bool
  | [], _ => true
  | _ :: _, [] => false
  | a :: as, b :: bs => a == b && prefAt as bs

/-- Is `pat` a contiguous sublist of the second list?  (Case-sensitive
substring search; used for the fixed, metacharacter-free Tier-2 sentinel
pattern of app.py line 55.) -/
def subAt (pat : List Char) : List Char → Bool
  | [] => decide (pat = [])
  | b :: bs => prefAt pat (b :: bs) || subAt pat bs

/-- The Tier-2 test of app.py line 55: `rule_name.str.contains("一般消費",
na=False)` — the pattern is a fixed literal with no regex metacharacter,
so the regex search is plain case-sensitive containment; a NaN cell gives
False. -/
def ruleNameHasGeneral (rn : Option String) : Bool :=
  match rn with
  | none => false
  | some s => subAt ("一般消費").data s.data

/-!  The modeled fragment of Python regular expressions.  `merchant_name`
reaches `re.compile` unescaped (app.py lines 42-43), so its metacharacters
are interpreted, and an invalid pattern raises `re.error`. -/

/-- The fourteen characters with special meaning in Python regular
expressions. -/
def isMetaChar (c : Char) : Bool :=
  c == '.' || c == '^' || c == '$' || c == '*' || c == '+' || c == '?' ||
  c == '{' || c == '}' || c == '[' || c == ']' || c == '\\' || c == '|' ||
  c == '(' || c == ')'

/-- A pattern free of regex metacharacters: re.compile treats it as the
plain text to search for (case-insensitively, under IGNORECASE). -/
def isLiteralPat (p : String) : Bool :=
  p.data.all (fun c => !isMetaChar c)

/-- Regexes of the modeled fragment: the empty language, the empty string,
one character (compared case-insensitively, the IGNORECASE effect on basic
latin), a character class given as a predicate (the dot and the escape
classes), concatenation, alternation and Kleene star. -/
inductive Rg where
  | fail
  | empty
  | char (c : Char)
  | cclass (p : Char → Bool)
  | cat (a b : Rg)
  | alt (a b : Rg)
  | star (a : Rg)

/-- Does the regex accept the empty string? -/
def nullable : Rg → Bool
  | .fail => false
  | .empty => true
  | .char _ => false
  | .cclass _ => false
  | .cat a b => nullable a && nullable b
  | .alt a b => nullable a || nullable b
  | .star _ => true

/-- Concatenation with on-the-fly simplification of the failure and
empty-string regexes (the matched language is unchanged). -/
def scat : Rg → Rg → Rg
  | .fail, _ => .fail
  | _, .fail => .fail
  | .empty, r => r
  | r, .empty => r
  | a, b => .cat a b

/-- Alternation with on-the-fly simplification of the failure regex. -/
def salt : Rg → Rg → Rg
  | .fail, r => r
  | r, .fail => r
  | a, b => .alt a b

/-- Brzozowski derivative: the language of suffixes after reading one
character.  A literal character is compared case-insensitively
(re.IGNORECASE, basic latin). -/
def deriv : Rg → Char → Rg
  | .fail, _ => .fail
  | .empty, _ => .fail
  | .char c, x => if Char.toLower c = Char.toLower x then .empty else .fail
  | .cclass p, x => if p x then .empty else .fail
  | .cat a b, x =>
      if nullable a then salt (scat (deriv a x) b) (deriv b x)
      else scat (deriv a x) b
  | .alt a b, x => salt (deriv a x) (deriv b x)
  | .star a, x => scat (deriv a x) (.star a)

/-- Does the regex match some prefix of the character list? -/
def matchPre : Rg → List Char → Bool
  | r, [] => nullable r
  | r, c :: rest => nullable r || matchPre (deriv r c) rest

/-- re.search semantics: does the regex match somewhere inside the
character list? -/
def reSearch : Rg → List Char → Bool
  | r, [] => nullable r
  | r, c :: rest => matchPre r (c :: rest) || reSearch r rest

/-- The regex of a metacharacter-free pattern: the concatenation of its
characters. -/
def mkLit : List Char → Rg
  | [] => .empty
  | c :: cs => .cat (.char c) (mkLit cs)

/-- The quantifier characters of the fragment. -/
def isQuantChar (c : Char) : Bool :=
  c == '*' || c == '+' || c == '?'

/-- Meaning of one quantifier applied to an atom. -/
def applyQuant (q : Char) (r : Rg) : Rg :=
  if q == '*' then Rg.star r
  else if q == '+' then Rg.cat r (Rg.star r)
  else Rg.alt r Rg.empty

/-- The modeled escape classes (digits, word characters, whitespace and
their complements, on the basic latin range, matching the demo data). -/
def escClass (e : Char) : Option (Char → Bool) :=
  if e == 'd' then some (fun c => c.isDigit)
  else if e == 'D' then some (fun c => !c.isDigit)
  else if e == 'w' then some (fun c => c.isAlphanum || c == '_')
  else if e == 'W' then some (fun c => !(c.isAlphanum || c == '_'))
  else if e == 's' then some (fun c => c.isWhitespace)
  else if e == 'S' then some (fun c => !c.isWhitespace)
  else none

/-- Consume at most one quantifier after an atom, together with an
optional lazy question mark.  A second quantifier is left in place; the
caller then reports the multiple-repeat error, as re.compile does. -/
def takeQuant (r : Rg) : List Char → Rg × List Char
  | q :: '?' :: rest =>
      if isQuantChar q then (applyQuant q r, rest) else (r, q :: '?' :: rest)
  | q :: rest =>
      if isQuantChar q then (applyQuant q r, rest) else (r, q :: rest)
  | [] => (r, [])

/-- Intermediate parser outcome: a parsed regex with the unconsumed rest,
the pattern error of re.compile, or a pattern that uses constructs outside
the modeled fragment. -/
inductive ParseOut where
  | ok (r : Rg) (rest : List Char)
  | error
  | scopeOut

mutual

/-- Parse a concatenation of quantified atoms, stopping before a bar or a
closing parenthesis.  A quantifier with no preceding atom is the
nothing-to-repeat or multiple-repeat error of re.compile; a group must be
closed, an escape must have a body.  The fuel only bounds the recursion
and is initialized above any possible consumption. -/
def parseSeq : Nat → Rg → List Char → ParseOut
  | 0, _, _ => .scopeOut
  | _ + 1, acc, [] => .ok acc []
  | _ + 1, acc, ')' :: rest => .ok acc (')' :: rest)
  | _ + 1, acc, '|' :: rest => .ok acc ('|' :: rest)
  | fuel + 1, acc, c :: rest =>
      if isQuantChar c then .error
      else if c == '(' then
        match rest with
        | '?' :: _ => .scopeOut
        | _ =>
          match parseAlt fuel rest with
          | .ok g (')' :: rest2) =>
              let qr := takeQuant g rest2
              parseSeq fuel (scat acc qr.1) qr.2
          | .ok _ _ => .error
          | .error => .error
          | .scopeOut => .scopeOut
      else if c == '\\' then
        match rest with
        | [] => .error
        | e :: rest2 =>
          if isMetaChar e then
            let qr := takeQuant (Rg.char e) rest2
            parseSeq fuel (scat acc qr.1) qr.2
          else
            match escClass e with
            | some p =>
                let qr := takeQuant (Rg.cclass p) rest2
                parseSeq fuel (scat acc qr.1) qr.2
            | none => .scopeOut
      else if c == '.' then
        let qr := takeQuant (Rg.cclass (fun x => x != '\n')) rest
        parseSeq fuel (scat acc qr.1) qr.2
      else if c == '^' || c == '$' || c == '[' || c == ']' ||
          c == '{' || c == '}' then
        .scopeOut
      else
        let qr := takeQuant (Rg.char c) rest
        parseSeq fuel (scat acc qr.1) qr.2

/-- Parse an alternation: concatenations separated by bars. -/
def parseAlt : Nat → List Char → ParseOut
  | 0, _ => .scopeOut
  | fuel + 1, s =>
      match parseSeq fuel .empty s with
      | .ok r ('|' :: rest) =>
          match parseAlt fuel rest with
          | .ok r2 rest2 => .ok (Rg.alt r r2) rest2
          | .error => .error
          | .scopeOut => .scopeOut
      | out => out

end

/-- Result of compiling a merchant pattern (the regex=True path of
str.contains): a regex of the modeled fragment, the re.error exception, or
a pattern outside the fragment. -/
inductive PatRes where
  | ok (r : Rg)
  | error
  | scopeOut

/-- Model of re.compile(merchant_name, re.IGNORECASE) as performed inside
str.contains (app.py lines 42-43).  A metacharacter-free pattern compiles
to its literal regex; other patterns go through the fragment parser, and a
pattern left with an unconsumed closing parenthesis is the
unbalanced-parenthesis re.error. -/
def compilePat (p : String) : PatRes :=
  if isLiteralPat p then PatRes.ok (mkLit p.data)
  else
    match parseAlt (2 * p.data.length + 4) p.data with
    | .ok r [] => PatRes.ok r
    | .ok _ _ => PatRes.error
    | .error => PatRes.error
    | .scopeOut => PatRes.scopeOut

/-- The keyword test of app.py lines 42-43 on one cell: `na=False` sends a
NaN cell to False; otherwise the compiled merchant pattern is searched in
the keyword text (re.search). -/
def kwContains (kw : Option String) (re : Rg) : Bool :=
  match kw with
  | none => false
  | some s => reSearch re s.data

/-- app.py line 31: `rules_df[rules_df["card_id"] == card_id]` — the rules
of this card, in input order. -/
def cardRulesOf (cid : String) (rules : List RewardRule) : List RewardRule :=
  rules.filter (fun r => r.card_id == cid)

/-- app.py line 38 applied to one row: `merchant_keywords` NaN becomes the
empty string. -/
def fillnaRule (r : RewardRule) : RewardRule :=
  { r with merchant_keywords := some (r.merchant_keywords.getD "") }

/-- app.py line 38: `card_rules["merchant_keywords"] =
card_rules["merchant_keywords"].fillna("")`, applied to the copied frame. -/
def fillnaKeywords (l : List RewardRule) : List RewardRule :=
  l.map fillnaRule

/-- The Tier-1 row predicate of app.py lines 40-43: channel matches or is
the wildcard, category matches or is the wildcard, and the compiled
merchant pattern is found in the keywords. -/
def specialPred (re : Rg) (spend_channel merchant_category : String)
    (r : RewardRule) : Bool :=
  (r.spend_channel == spend_channel || r.spend_channel == "all") &&
  (r.merchant_category == merchant_category || r.merchant_category == "all") &&
  kwContains r.merchant_keywords re

/-- app.py lines 39-44: the `special_rules` frame (rules of the card, after
the fillna of line 38, restricted to Tier-1 matches; input order kept). -/
def specialRules (cid : String) (re : Rg)
    (spend_channel merchant_category : String)
    (rules : List RewardRule) : List RewardRule :=
  (fillnaKeywords (cardRulesOf cid rules)).filter
    (specialPred re spend_channel merchant_category)

/-- app.py line 55: the `general_rule` frame (rules of the card whose name
contains the general-spending sentinel 一般消費; input order kept). -/
def generalRules (cid : String) (rules : List RewardRule) : List RewardRule :=
  (fillnaKeywords (cardRulesOf cid rules)).filter
    (fun r => ruleNameHasGeneral r.rule_name)

/-- Ascending priority, the sort key of app.py line 48. -/
def priLe (a b : RewardRule) : Prop := a.priority ≤ b.priority

/-- Descending priority, the sort key of app.py line 57
(`ascending=False`). -/
def priGe (a b : RewardRule) : Prop := b.priority ≤ a.priority

instance : DecidableRel priLe :=
  fun a b => inferInstanceAs (Decidable (a.priority ≤ b.priority))

instance : DecidableRel priGe :=
  fun a b => inferInstanceAs (Decidable (b.priority ≤ a.priority))

instance : IsTotal RewardRule priLe := ⟨fun a b => Int.le_total a.priority b.priority⟩

instance : IsTrans RewardRule priLe := ⟨fun _ _ _ h h2 => Int.le_trans h h2⟩

instance : IsTotal RewardRule priGe := ⟨fun a b => Int.le_total b.priority a.priority⟩

instance : IsTrans RewardRule priGe := ⟨fun _ _ _ h h2 => Int.le_trans h2 h⟩

/-- Half-up rounding of a rational to hundredths, on the numerator and
denominator directly: the floor of q * 100 + 1 / 2 is
(200 * num + den) fdiv (2 * den). -/
def round2 (q : ℚ) : Int :=
  Int.fdiv (200 * q.num + (q.den : Int)) (2 * (q.den : Int))

/-- Formatting of a float with two decimals, as in the f-strings of app.py
lines 50, 59, 65 (the .2f format).  A NaN prints as nan.  The exact
rounding detail is irrelevant to every claim; half-up rounding of the
exact rational is used. -/
def fmt2 (x : PyFloat) : String :=
  match x with
  | .nan => "nan"
  | .num q =>
      let c : Int := round2 q
      let a := c.natAbs
      (if c < 0 then "-" else "") ++ toString (a / 100) ++ "." ++
        (if a % 100 < 10 then "0" else "") ++ toString (a % 100)

/-- Rendering of an optional text cell inside an f-string: pandas NaN
prints as nan. -/
def cellText (s : Option String) : String :=
  s.getD "nan"

/-- The Tier-1 description of app.py line 50. -/
def tier1Desc (r : RewardRule) : String :=
  cellText r.rule_name ++ "（" ++ fmt2 r.rate_percent ++ "%）"

/-- The Tier-2 description of app.py line 59. -/
def tier2Desc (r : RewardRule) : String :=
  cellText r.rule_name ++ "（一般消費 " ++ fmt2 r.rate_percent ++ "%）"

/-- The Tier-3 description of app.py line 65. -/
def tier3Desc (v : PyFloat) : String :=
  "一般消費（卡片基本回饋 " ++ fmt2 v ++ "%）"

/-- The Tier-4 result of app.py line 69. -/
def tier4Result : PyFloat × String :=
  (PyFloat.num 0, "未找到回饋規則")

/-- The Rate Resolver, app.py lines 20-69, translated statement by
statement.  Reading a missing `card_id` key raises KeyError (line 28);
str.contains then compiles merchant_name as a regex (lines 42-43), raising
re.error for an invalid pattern before any row is examined — both embedded
as `Except.error`.  A pattern outside the modeled fragment yields a
distinguished model-scope error that no statement below relies on.  Each
`sort_values(...).iloc[0]` is the head of the stable sort (see the module
comment); the four early returns become the nested matches. -/
def find_best_rate_for_card (card : Card) (rules : List RewardRule)
    (merchant_name spend_channel merchant_category : String) :
    Except String (PyFloat × String) :=
  match card.card_id with
  | none => Except.error ("KeyError: card_id")
  | some cid =>
    match compilePat merchant_name with
    | .error => Except.error ("re.error: merchant_name is not a valid pattern")
    | .scopeOut =>
        Except.error ("model scope: merchant pattern outside the embedded regex fragment")
    | .ok re =>
      match (List.insertionSort priLe
          (specialRules cid re spend_channel merchant_category rules)).head? with
      | some best_rule => Except.ok (best_rule.rate_percent, tier1Desc best_rule)
      | none =>
        match (List.insertionSort priGe (generalRules cid rules)).head? with
        | some general_rule => Except.ok (general_rule.rate_percent, tier2Desc general_rule)
        | none =>
          match card.general_rate_percent with
          | some v => Except.ok (v, tier3Desc v)
          | none => Except.ok tier4Result

/-- Descending float comparison used by the ranking sort: for two numeric
rewards the pandas order is by value descending; a NaN reward sorts after
every numeric one (`na_position="last"`), and NaN rows keep their input
order among themselves. -/
def pfGeB : PyFloat → PyFloat → Bool
  | .num a, .num b => decide (b ≤ a)
  | _, .nan => true
  | .nan, .num _ => false

/-- Strictly-greater float comparison (spec side, for stating the claimed
rate sub-sort). -/
def pfGtB : PyFloat → PyFloat → Bool
  | .num a, .num b => decide (b < a)
  | .num _, .nan => true
  | .nan, _ => false

/-- One result row built by the loop of app.py lines 128-148. -/
structure RankedEntry where
  bank : String
  card_name : String
  display_name : String
  rate : PyFloat
  reward : PyFloat
  desc : String
deriving DecidableEq

/-- app.py line 139: `reward_amount = amount * rate / 100.0`, as the exact
rational of that product (see `rewardOf_eq`); NaN propagates. -/
def rewardOf (amount : ℚ) (rate : PyFloat) : PyFloat :=
  match rate with
  | .nan => .nan
  | .num q => .num (mkRat (amount.num * q.num) (amount.den * q.den * 100))

/-- One iteration of the loop of app.py lines 128-148: resolve the rate for
the card (channel and category are fixed to online / online_digital in
app.py lines 135-136) and build the result row. -/
def mkEntry (rules : List RewardRule) (merchant_name : String) (amount : ℚ)
    (card : Card) : Except String RankedEntry :=
  (find_best_rate_for_card card rules merchant_name ("online") ("online_digital")).map
    (fun rd =>
      { bank := card.bank, card_name := card.card_name,
        display_name := card.display_name, rate := rd.1,
        reward := rewardOf amount rd.1, desc := rd.2 })

/-- The `results` list of app.py lines 126-148, in card input order. -/
def buildResults (cards : List Card) (rules : List RewardRule)
    (merchant_name : String) (amount : ℚ) : Except String (List RankedEntry) :=
  cards.mapM (mkEntry rules merchant_name amount)

/-- The ranking order of app.py lines 156-159: by reward amount only,
descending (`sort_values(by=預估回饋金額, ascending=False)`). -/
def entryGe (a b : RankedEntry) : Prop := pfGeB a.reward b.reward = true

instance : DecidableRel entryGe :=
  fun a b => inferInstanceAs (Decidable (pfGeB a.reward b.reward = true))

/-- The Reward Ranker: the sorted `results_df` of app.py lines 154-159. -/
def rankResults (cards : List Card) (rules : List RewardRule)
    (merchant_name : String) (amount : ℚ) : Except String (List RankedEntry) :=
  (buildResults cards rules merchant_name amount).map (List.insertionSort entryGe)

/-- app.py line 162: `best_row = results_df.iloc[0]` — the head of the
sorted results. -/
def bestRow (cards : List Card) (rules : List RewardRule)
    (merchant_name : String) (amount : ℚ) : Except String (Option RankedEntry) :=
  (rankResults cards rules merchant_name amount).map List.head?

/-- The two caller-owned pandas objects that `find_best_rate_for_card`
receives, plus the callee-local `card_rules` frame, as one explicit store.
`card_rules` models the object created by the `.copy()` of app.py line 31;
it is the only slot the function ever assigns to (the fillna of line
38). -/
structure PStore where
  rules_df : List RewardRule
  card_row : Card
  card_rules : List RewardRule

/-- The Rate Resolver with the object store made explicit, statement by
statement: line 31 writes the filtered copy into the local `card_rules`
slot, line 38 overwrites the `merchant_keywords` column of that same local
slot, line 42 then compiles the merchant pattern (raising on an invalid
one), and no other statement of app.py lines 20-69 assigns to anything.
Returns the result together with the final store. -/
def find_best_rate_for_card_frame (s : PStore)
    (merchant_name spend_channel merchant_category : String) :
    Except String (PyFloat × String) × PStore :=
  match s.card_row.card_id with
  | none => (Except.error ("KeyError: card_id"), s)
  | some cid =>
    let s1 : PStore := { s with card_rules := cardRulesOf cid s.rules_df }
    let s2 : PStore := { s1 with card_rules := fillnaKeywords s1.card_rules }
    match compilePat merchant_name with
    | .error => (Except.error ("re.error: merchant_name is not a valid pattern"), s2)
    | .scopeOut =>
        (Except.error ("model scope: merchant pattern outside the embedded regex fragment"), s2)
    | .ok re =>
      let special_rules := s2.card_rules.filter
        (specialPred re spend_channel merchant_category)
      match (List.insertionSort priLe special_rules).head? with
      | some best_rule => (Except.ok (best_rule.rate_percent, tier1Desc best_rule), s2)
      | none =>
        let general_rule := s2.card_rules.filter (fun r => ruleNameHasGeneral r.rule_name)
        match (List.insertionSort priGe general_rule).head? with
        | some g => (Except.ok (g.rate_percent, tier2Desc g), s2)
        | none =>
          match s2.card_row.general_rate_percent with
          | some v => (Except.ok (v, tier3Desc v), s2)
          | none => (Except.ok tier4Result, s2)

/-!  Generic facts about the stable sort `List.insertionSort`, used to relate
the sort-then-take-first idiom of the source to the selections it makes,
and to state stability of the ranking. -/

section SortFacts

variable {α : Type} {r : α → α → Prop} [DecidableRel r]

/-- find? only looks at the predicate values on the members. -/
theorem find?_congr_mem {p q : α → Bool} :
    ∀ {l : List α}, (∀ x ∈ l, p x = q x) → l.find? p = l.find? q
  | [], _ => rfl
  | a :: l, h => by
    have ha := h a (List.mem_cons_self a l)
    by_cases hpa : p a = true
    · rw [List.find?_cons_of_pos _ hpa, List.find?_cons_of_pos _ (ha ▸ hpa)]
    · rw [List.find?_cons_of_neg _ hpa, List.find?_cons_of_neg _ (ha ▸ hpa),
        find?_congr_mem (fun x hx => h x (List.mem_cons_of_mem a hx))]

/-- Stability of insertion sort on an equivalence class: filtering the
sorted list by a predicate whose holders are all mutually related gives
exactly the filtered input, in input order. -/
theorem filter_insertionSort_eq (p : α → Bool)
    (hp : ∀ a b, p a = true → p b = true → r a b) (l : List α) :
    (l.insertionSort r).filter p = l.filter p := by
  have hpair : (l.filter p).Pairwise r :=
    List.pairwise_of_forall_mem_list (fun a ha b hb =>
      hp a b (List.mem_filter.mp ha).2 (List.mem_filter.mp hb).2)
  have hsub : List.Sublist (l.filter p) (l.insertionSort r) :=
    List.sublist_insertionSort hpair (List.filter_sublist l)
  have hsub2 : List.Sublist (l.filter p) ((l.insertionSort r).filter p) := by
    have h2 := hsub.filter p
    rwa [List.filter_eq_self.mpr (fun a ha => (List.mem_filter.mp ha).2)] at h2
  have hperm : List.Perm ((l.insertionSort r).filter p) (l.filter p) :=
    (List.perm_insertionSort r l).filter p
  exact (hsub2.eq_of_length hperm.length_eq.symm).symm

/-- The head of the stable sort is the first member of the input that is
related to every member: the stable-sort-then-iloc0 idiom selects the
extremal element that appears earliest in input order. -/
theorem head?_insertionSort_eq_find? [IsTotal α r] [IsTrans α r] (l : List α) :
    (l.insertionSort r).head? = l.find? (fun a => l.all (fun b => decide (r a b))) := by
  cases hs : l.insertionSort r with
  | nil =>
      have hnil : l = [] := by
        have hperm := List.perm_insertionSort r l
        rw [hs] at hperm
        exact hperm.symm.eq_nil
      rw [hnil]
      rfl
  | cons m t =>
      have hsorted := List.sorted_insertionSort r l
      rw [hs] at hsorted
      have hm_mem : m ∈ l := by
        have hmem : m ∈ l.insertionSort r := by
          rw [hs]
          exact List.mem_cons_self m t
        exact (List.mem_insertionSort r).mp hmem
      have hmin : ∀ x ∈ l, r m x := by
        intro x hx
        have hx2 : x ∈ l.insertionSort r := (List.mem_insertionSort r).mpr hx
        rw [hs] at hx2
        rcases List.mem_cons.mp hx2 with hxm | hxt
        · subst hxm
          exact (total_of r x x).elim id id
        · exact List.rel_of_sorted_cons hsorted x hxt
      have hcls : ∀ a b, (decide (r m a) && decide (r a m)) = true →
          (decide (r m b) && decide (r b m)) = true → r a b := by
        intro a b ha hb
        simp only [Bool.and_eq_true, decide_eq_true_eq] at ha hb
        exact trans_of r ha.2 hb.1
      have hfilter := filter_insertionSort_eq
        (fun x => decide (r m x) && decide (r x m)) hcls l
      have hrmm : r m m := (total_of r m m).elim id id
      have hL : ((m :: t).filter
          (fun x => decide (r m x) && decide (r x m))).head? = some m := by
        simp [List.filter_cons, hrmm]
      have hq : ∀ x ∈ l, (l.all (fun b => decide (r x b))) =
          (decide (r m x) && decide (r x m)) := by
        intro x hx
        have hrmx : decide (r m x) = true := by
          simp only [decide_eq_true_eq]
          exact hmin x hx
        rw [hrmx, Bool.true_and]
        by_cases hxm : r x m
        · have hall : l.all (fun b => decide (r x b)) = true := by
            simp only [List.all_eq_true, decide_eq_true_eq]
            intro b hb
            exact trans_of r hxm (hmin b hb)
          rw [hall, decide_eq_true hxm]
        · have hnall : l.all (fun b => decide (r x b)) = false := by
            simp only [List.all_eq_false, decide_eq_true_eq]
            exact ⟨m, hm_mem, hxm⟩
          rw [hnall, decide_eq_false hxm]
      rw [find?_congr_mem hq, ← List.filter_head?, ← hfilter, hs]
      exact hL.symm

end SortFacts

/-- Float comparison `pfGeB` is total. -/
theorem pfGeB_total (x y : PyFloat) : pfGeB x y = true ∨ pfGeB y x = true := by
  cases x <;> cases y <;> simp [pfGeB]
  exact le_total _ _

/-- Float comparison `pfGeB` is transitive. -/
theorem pfGeB_trans {x y z : PyFloat} (h1 : pfGeB x y = true)
    (h2 : pfGeB y z = true) : pfGeB x z = true := by
  cases x <;> cases y <;> cases z <;> simp_all [pfGeB]
  exact le_trans h2 h1

instance : IsTotal RankedEntry entryGe := ⟨fun a b => pfGeB_total a.reward b.reward⟩

instance : IsTrans RankedEntry entryGe := ⟨fun _ _ _ h1 h2 => pfGeB_trans h1 h2⟩

/-- Float comparison `pfGeB` is reflexive. -/
theorem pfGeB_refl (x : PyFloat) : pfGeB x x = true := by
  cases x <;> simp [pfGeB]

/-- Coherence of the reward formula: the mkRat expression of `rewardOf` is
exactly the rational amount * q / 100 of app.py line 139. -/
theorem rewardOf_eq (amount q : ℚ) :
    rewardOf amount (PyFloat.num q) = PyFloat.num (amount * q / 100) := by
  show PyFloat.num (mkRat (amount.num * q.num) (amount.den * q.den * 100)) =
    PyFloat.num (amount * q / 100)
  congr 1
  rw [Rat.mkRat_eq_divInt, Rat.divInt_eq_div]
  have ha : ((amount.den : ℚ)) ≠ 0 := by
    exact_mod_cast amount.den_ne_zero
  have hq2 : ((q.den : ℚ)) ≠ 0 := by
    exact_mod_cast q.den_ne_zero
  conv_rhs => rw [← Rat.num_div_den amount, ← Rat.num_div_den q]
  push_cast
  field_simp

/-- A Nat below the surrogate range converts to a Char and back
unchanged. -/
theorem char_toNat_ofNat_of_lt (m : Nat) (h : m < 55296) :
    (Char.ofNat m).toNat = m := by
  have hv : Nat.isValidChar m := Or.inl h
  unfold Char.ofNat
  rw [dif_pos hv]
  rfl

/-- Lowercasing after uppercasing agrees with lowercasing. -/
theorem char_toLower_toUpper (c : Char) :
    Char.toLower (Char.toUpper c) = Char.toLower c := by
  unfold Char.toUpper Char.toLower
  by_cases h : c.toNat ≥ 97 ∧ c.toNat ≤ 122
  · rw [if_pos h]
    have ht : (Char.ofNat (c.toNat - 32)).toNat = c.toNat - 32 :=
      char_toNat_ofNat_of_lt _ (by omega)
    rw [ht]
    rw [if_pos (by omega)]
    have h2 : c.toNat - 32 + 32 = c.toNat := by omega
    rw [h2, Char.ofNat_toNat]
    rw [if_neg (by omega)]
  · rw [if_neg h]

/-- Lowercasing is idempotent. -/
theorem char_toLower_toLower (c : Char) :
    Char.toLower (Char.toLower c) = Char.toLower c := by
  unfold Char.toLower
  by_cases h : c.toNat ≥ 65 ∧ c.toNat ≤ 90
  · rw [if_pos h]
    have ht : (Char.ofNat (c.toNat + 32)).toNat = c.toNat + 32 :=
      char_toNat_ofNat_of_lt _ (by omega)
    rw [ht]
    rw [if_neg (by omega)]
  · simp only [if_neg h]

/-- Lowercasing an uppercased character list agrees with lowercasing it. -/
theorem map_toLower_map_toUpper (l : List Char) :
    (l.map Char.toUpper).map Char.toLower = l.map Char.toLower := by
  rw [List.map_map,
    show Char.toLower ∘ Char.toUpper = Char.toLower from funext char_toLower_toUpper]

/-- Lowercasing is idempotent on character lists. -/
theorem map_toLower_map_toLower (l : List Char) :
    (l.map Char.toLower).map Char.toLower = l.map Char.toLower := by
  rw [List.map_map,
    show Char.toLower ∘ Char.toLower = Char.toLower from funext char_toLower_toLower]

/-- Lowercasing an uppercased string agrees with lowercasing it. -/
theorem strLower_strUpper (s : String) : strLower (strUpper s) = strLower s := by
  show String.mk ((s.data.map Char.toUpper).map Char.toLower) =
    String.mk (s.data.map Char.toLower)
  rw [map_toLower_map_toUpper]

/-- Lowercasing is idempotent on strings. -/
theorem strLower_strLower (s : String) : strLower (strLower s) = strLower s := by
  show String.mk ((s.data.map Char.toLower).map Char.toLower) =
    String.mk (s.data.map Char.toLower)
  rw [map_toLower_map_toLower]

/-- A metacharacter-free pattern compiles to its literal regex. -/
theorem compilePat_literal (p : String) (h : isLiteralPat p = true) :
    compilePat p = PatRes.ok (mkLit p.data) := by
  unfold compilePat
  rw [if_pos h]

/-- The literal regex of a pattern is nullable exactly for the empty
pattern. -/
theorem nullable_mkLit : ∀ l : List Char, nullable (mkLit l) = l.isEmpty
  | [] => rfl
  | _ :: _ => rfl

/-- The first rule of l attaining the minimal priority value (smallest
priority, ties broken by input order). -/
def firstMinPriority (l : List RewardRule) : Option RewardRule :=
  l.find? (fun s => l.all (fun t => decide (s.priority ≤ t.priority)))

/-- The first rule of l attaining the maximal priority value (largest
priority, ties broken by input order). -/
def firstMaxPriority (l : List RewardRule) : Option RewardRule :=
  l.find? (fun s => l.all (fun t => decide (t.priority ≤ s.priority)))

/-- The sort-ascending-take-first idiom of app.py line 48, in the stable
model of the sort, selects the first minimal-priority rule. -/
theorem head?_sort_priLe (l : List RewardRule) :
    (List.insertionSort priLe l).head? = firstMinPriority l :=
  head?_insertionSort_eq_find? l

/-- The sort-descending-take-first idiom of app.py line 57, in the stable
model of the sort, selects the first maximal-priority rule. -/
theorem head?_sort_priGe (l : List RewardRule) :
    (List.insertionSort priGe l).head? = firstMaxPriority l :=
  head?_insertionSort_eq_find? l

/-- Tier 1 as a separate matcher (app.py lines 39-51): the Tier-1 result
for the compiled merchant pattern, none when no special rule matches. -/
def tier1 (cid : String) (re : Rg) (ch cat : String)
    (rules : List RewardRule) : Option (PyFloat × String) :=
  (List.insertionSort priLe (specialRules cid re ch cat rules)).head?.map
    (fun r => (r.rate_percent, tier1Desc r))

/-- Tier 2 as a separate matcher (app.py lines 53-60). -/
def tier2 (cid : String) (rules : List RewardRule) : Option (PyFloat × String) :=
  (List.insertionSort priGe (generalRules cid rules)).head?.map
    (fun r => (r.rate_percent, tier2Desc r))

/-- Tier 3 as a separate matcher (app.py lines 62-66). -/
def tier3 (card : Card) : Option (PyFloat × String) :=
  card.general_rate_percent.map (fun v => (v, tier3Desc v))

/-!  Concrete cards and rules used by the witnesses and counterexamples,
shaped after the demo data (spec section 8 examples). -/

/-- A card with no catch-all rate. -/
def exCardPlain : Card :=
  { card_id := some "c1", bank := "B", card_name := "N", display_name := "D",
    general_rate_percent := none }

/-- A card whose id matches no rule and that has no catch-all rate. -/
def exCardEmpty : Card :=
  { card_id := some "c9", bank := "B", card_name := "N", display_name := "D",
    general_rate_percent := none }

/-- A card whose general_rate_percent key is present but holds NaN. -/
def exCardNaN : Card :=
  { card_id := some "c7", bank := "B", card_name := "N", display_name := "D",
    general_rate_percent := some PyFloat.nan }

/-- A card with a stored catch-all rate of 0.8 percent. -/
def exCardGen : Card :=
  { card_id := some "c8", bank := "B", card_name := "N", display_name := "D",
    general_rate_percent := some (PyFloat.num (mkRat 8 10)) }

/-- A card row lacking the card_id key. -/
def exCardNoId : Card :=
  { card_id := none, bank := "B", card_name := "N", display_name := "D",
    general_rate_percent := none }

/-- A Tier-1 rule with priority 2. -/
def exRuleSpA : RewardRule :=
  { card_id := "c1", rule_name := some "影音加碼A", spend_channel := "online",
    merchant_category := "all", merchant_keywords := some "youtube",
    priority := 2, rate_percent := PyFloat.num 3 }

/-- A Tier-1 rule with priority 1. -/
def exRuleSpB : RewardRule :=
  { card_id := "c1", rule_name := some "影音加碼B", spend_channel := "all",
    merchant_category := "online_digital", merchant_keywords := some "youtube,netflix",
    priority := 1, rate_percent := PyFloat.num 5 }

/-- A general-spending rule with priority 1. -/
def exRuleGenA : RewardRule :=
  { card_id := "c1", rule_name := some "一般消費基本", spend_channel := "all",
    merchant_category := "all", merchant_keywords := none,
    priority := 1, rate_percent := PyFloat.num 1 }

/-- A general-spending rule with priority 3. -/
def exRuleGenB : RewardRule :=
  { card_id := "c1", rule_name := some "一般消費加碼", spend_channel := "all",
    merchant_category := "all", merchant_keywords := none,
    priority := 3, rate_percent := PyFloat.num 2 }

/-- The rule sheet used by several witnesses. -/
def exRules : List RewardRule :=
  [exRuleSpA, exRuleSpB, exRuleGenA, exRuleGenB]

/-- A rule whose merchant_keywords cell is missing (NaN). -/
def exRuleNoKw : RewardRule :=
  { card_id := "c1", rule_name := some "神秘加碼", spend_channel := "online",
    merchant_category := "online_digital", merchant_keywords := none,
    priority := 1, rate_percent := PyFloat.num 5 }

/-- Claim C2 as stated is false of the code: at the invalid-regex merchant
name ( the resolver raises re.error out of str.contains, so no tier
contributes and no ResolutionResult is produced, against the claim that
the first satisfied tier determines an output for every input. -/
theorem claim_C2_counterexample :
    find_best_rate_for_card exCardPlain exRules ("(") ("online") ("online_digital") =
      Except.error ("re.error: merchant_name is not a valid pattern") := by
  decide

/-- Claim C2 (amended): whenever the merchant pattern compiles, the
resolver consults Tier 1 (special match), Tier 2 (general-spending
sentinel), Tier 3 (card-level rate) and Tier 4 (zero, no rule found) in
this strict order, and the first tier that yields a result determines the
output: the resolver equals the first-defined-wins composition of the four
tier matchers.  With an invalid pattern the call raises instead (see the
counterexample). -/
theorem claim_C2_tier_order (card : Card) (rules : List RewardRule)
    (m ch cat cid : String) (re : Rg) (hc : card.card_id = some cid)
    (hre : compilePat m = PatRes.ok re) :
    find_best_rate_for_card card rules m ch cat =
      Except.ok ((((tier1 cid re ch cat rules).orElse
        (fun _ => tier2 cid rules)).orElse
        (fun _ => tier3 card)).getD tier4Result) := by
  simp only [find_best_rate_for_card, tier1, tier2, tier3, hc, hre]
  cases (List.insertionSort priLe (specialRules cid re ch cat rules)).head? with
  | some b => rfl
  | none =>
    cases (List.insertionSort priGe (generalRules cid rules)).head? with
    | some g => rfl
    | none =>
      cases card.general_rate_percent with
      | some v => rfl
      | none => rfl

/-- Witness for the amended C2 at a concrete input: the YouTube lookup on
the demo rules equals the tier composition. -/
theorem claim_C2_witness :
    find_best_rate_for_card exCardPlain exRules ("YouTube") ("online") ("online_digital") =
      Except.ok ((((tier1 ("c1") (mkLit ("YouTube").data) ("online") ("online_digital")
        exRules).orElse
        (fun _ => tier2 ("c1") exRules)).orElse
        (fun _ => tier3 exCardPlain)).getD tier4Result) :=
  claim_C2_tier_order exCardPlain exRules ("YouTube") ("online") ("online_digital")
    ("c1") (mkLit ("YouTube").data) rfl (compilePat_literal ("YouTube") (by decide))

/-- Claim C5, failing input: a card with zero matching rules and no
general_rate_percent should resolve to the Tier-4 result without ever
raising, but with the invalid-regex merchant name ( the call raises
re.error at the str.contains of line 42 before Tier 4 is reached. -/
theorem claim_C5_raises_at_invalid_pattern :
    cardRulesOf ("c9") exRules = [] ∧
    exCardEmpty.general_rate_percent = none ∧
    find_best_rate_for_card exCardEmpty exRules ("(") ("online") ("online_digital") =
      Except.error ("re.error: merchant_name is not a valid pattern") := by
  refine ⟨by decide, rfl, by decide⟩

/-- Claim C7 as stated is false of the code: with the general_rate_percent
key present and no matching rule, the merchant name ( makes the call raise
re.error instead of returning the stored rate, so the stored value is not
returned whenever the key is present. -/
theorem claim_C7_counterexample :
    exCardGen.general_rate_percent = some (PyFloat.num (mkRat 8 10)) ∧
    find_best_rate_for_card exCardGen [] ("(") ("online") ("online_digital") =
      Except.error ("re.error: merchant_name is not a valid pattern") := by
  refine ⟨rfl, by decide⟩

/-- Claim C7 (amended): when the merchant pattern compiles and Tiers 1 and
2 yield nothing, the resolver returns the stored general_rate_percent
value whenever that key is present in the card record — including a
present-but-NaN value, which is returned as the NaN rate — and the Tier-4
result (0.0, 未找到回饋規則) is produced only when the key is absent from
the record altogether.  With an invalid-regex merchant the call raises
before Tier 3 is consulted (see the counterexample). -/
theorem claim_C7_general_rate_key (card : Card) (rules : List RewardRule)
    (m ch cat cid : String) (re : Rg) (hc : card.card_id = some cid)
    (hre : compilePat m = PatRes.ok re)
    (h1 : specialRules cid re ch cat rules = [])
    (h2 : generalRules cid rules = []) :
    (∀ v, card.general_rate_percent = some v →
      find_best_rate_for_card card rules m ch cat = Except.ok (v, tier3Desc v)) ∧
    (card.general_rate_percent = some PyFloat.nan →
      find_best_rate_for_card card rules m ch cat =
        Except.ok (PyFloat.nan, tier3Desc PyFloat.nan)) ∧
    (card.general_rate_percent = none →
      find_best_rate_for_card card rules m ch cat =
        Except.ok (PyFloat.num 0, "未找到回饋規則")) := by
  refine ⟨?_, ?_, ?_⟩
  · intro v hv
    simp only [find_best_rate_for_card, hc, hre, h1, h2, hv, List.insertionSort,
      List.head?_nil]
  · intro hv
    simp only [find_best_rate_for_card, hc, hre, h1, h2, hv, List.insertionSort,
      List.head?_nil]
  · intro hv
    simp only [find_best_rate_for_card, hc, hre, h1, h2, hv, List.insertionSort,
      List.head?_nil, tier4Result]

/-- Witness for the amended C7: a card with a present-but-NaN
general_rate_percent and a compiling merchant name resolves to the NaN
rate through Tier 3, not to the Tier-4 result. -/
theorem claim_C7_witness :
    compilePat ("m") = PatRes.ok (mkLit ("m").data) ∧
    specialRules ("c7") (mkLit ("m").data) ("online") ("online_digital") [] = [] ∧
    generalRules ("c7") [] = [] ∧
    exCardNaN.general_rate_percent = some PyFloat.nan ∧
    find_best_rate_for_card exCardNaN [] ("m") ("online") ("online_digital") =
      Except.ok (PyFloat.nan, tier3Desc PyFloat.nan) :=
  ⟨compilePat_literal ("m") (by decide), rfl, rfl, rfl,
    (claim_C7_general_rate_key exCardNaN [] ("m") ("online") ("online_digital")
      ("c7") (mkLit ("m").data) rfl (compilePat_literal ("m") (by decide)) rfl rfl).2.1 rfl⟩

/-- A card with general rate 1 percent, for the ranking examples. -/
def rkCardA : Card :=
  { card_id := some "ra", bank := "b1", card_name := "n1", display_name := "d1",
    general_rate_percent := some (PyFloat.num 1) }

/-- A card with general rate 5 percent, for the ranking examples. -/
def rkCardB : Card :=
  { card_id := some "rb", bank := "b2", card_name := "n2", display_name := "d2",
    general_rate_percent := some (PyFloat.num 5) }

/-- Result row of rkCardA at amount 0. -/
def rkEntryA0 : RankedEntry :=
  { bank := "b1", card_name := "n1", display_name := "d1", rate := PyFloat.num 1,
    reward := PyFloat.num 0, desc := "一般消費（卡片基本回饋 1.00%）" }

/-- Result row of rkCardB at amount 0. -/
def rkEntryB0 : RankedEntry :=
  { bank := "b2", card_name := "n2", display_name := "d2", rate := PyFloat.num 5,
    reward := PyFloat.num 0, desc := "一般消費（卡片基本回饋 5.00%）" }

/-- Result row of rkCardA at amount 200. -/
def rkEntryA2 : RankedEntry :=
  { bank := "b1", card_name := "n1", display_name := "d1", rate := PyFloat.num 1,
    reward := PyFloat.num 2, desc := "一般消費（卡片基本回饋 1.00%）" }

/-- Result row of rkCardB at amount 200. -/
def rkEntryB2 : RankedEntry :=
  { bank := "b2", card_name := "n2", display_name := "d2", rate := PyFloat.num 5,
    reward := PyFloat.num 10, desc := "一般消費（卡片基本回饋 5.00%）" }

/-- The output order claimed by C4 as stated: reward descending and, within
equal rewards, rate descending. -/
def SpecClaimedOrder (l : List RankedEntry) : Prop :=
  l.Pairwise (fun a b => pfGtB a.reward b.reward = true ∨
    (a.reward = b.reward ∧ pfGeB a.rate b.rate = true))

instance (l : List RankedEntry) : Decidable (SpecClaimedOrder l) := by
  unfold SpecClaimedOrder
  infer_instance

/-- Claim C4 as stated is false: at amount 0 the two cards tie on reward
(both 0) with rates 1 and 5, the ranker keeps input order, and the output
is not sub-sorted by rate descending. -/
theorem claim_C4_counterexample :
    rankResults [rkCardA, rkCardB] [] ("x") 0 = Except.ok [rkEntryA0, rkEntryB0] ∧
    ¬ SpecClaimedOrder [rkEntryA0, rkEntryB0] := by
  constructor
  · decide
  · decide

/-- Claim C4 (amended): the ranked output is sorted by reward amount
descending (NaN rewards last); entries tied on the reward amount keep
their original input order (filtering the output by any fixed reward value
gives exactly the filtered input); and the designated best entry is the
first element of the sorted list.  The sub-sort by rate_percent claimed in
the spec is absent from the code. -/
theorem claim_C4_rank_sorted_stable (cards : List Card) (rules : List RewardRule)
    (m : String) (amount : ℚ) (l out : List RankedEntry)
    (hb : buildResults cards rules m amount = Except.ok l)
    (hr : rankResults cards rules m amount = Except.ok out) :
    List.Sorted entryGe out ∧
    (∀ v : PyFloat, out.filter (fun e => decide (e.reward = v)) =
      l.filter (fun e => decide (e.reward = v))) ∧
    bestRow cards rules m amount = Except.ok out.head? := by
  have hout : out = l.insertionSort entryGe := by
    unfold rankResults at hr
    rw [hb] at hr
    simp only [Except.map] at hr
    exact ((Except.ok.injEq _ _).mp hr).symm
  subst hout
  refine ⟨List.sorted_insertionSort entryGe l, ?_, ?_⟩
  · intro v
    have hp : ∀ a b : RankedEntry, decide (a.reward = v) = true →
        decide (b.reward = v) = true → entryGe a b := by
      intro a b ha hb2
      have h1 : a.reward = v := of_decide_eq_true ha
      have h2 : b.reward = v := of_decide_eq_true hb2
      unfold entryGe
      rw [h1, h2]
      exact pfGeB_refl v
    exact filter_insertionSort_eq (fun e => decide (e.reward = v)) hp l
  · unfold bestRow
    rw [hr]
    rfl

/-- Witness for the amended C4 at amount 200: the higher-reward card comes
first, the reward-2 tie class is a singleton kept in place, and the best
row is the head of the sorted output. -/
theorem claim_C4_witness :
    buildResults [rkCardA, rkCardB] [] ("x") 200 = Except.ok [rkEntryA2, rkEntryB2] ∧
    rankResults [rkCardA, rkCardB] [] ("x") 200 = Except.ok [rkEntryB2, rkEntryA2] ∧
    List.Sorted entryGe [rkEntryB2, rkEntryA2] ∧
    ([rkEntryB2, rkEntryA2].filter (fun e => decide (e.reward = PyFloat.num 2)) =
      [rkEntryA2, rkEntryB2].filter (fun e => decide (e.reward = PyFloat.num 2))) ∧
    bestRow [rkCardA, rkCardB] [] ("x") 200 = Except.ok (some rkEntryB2) := by
  have h := claim_C4_rank_sorted_stable [rkCardA, rkCardB] [] ("x") 200
    [rkEntryA2, rkEntryB2] [rkEntryB2, rkEntryA2] (by decide) (by decide)
  exact ⟨by decide, by decide, h.1, h.2.1 (PyFloat.num 2), h.2.2⟩

/-- Claim C6 as stated is false: a rule with missing keywords does satisfy
the Tier-1 match for the empty merchant name, and also for the nonempty
regex merchants () and a* — the compiled pattern matches the empty filled
keyword cell in all three cases, and the resolver answers through Tier 1
from that rule. -/
theorem claim_C6_counterexample :
    specialRules ("c1") Rg.empty ("online") ("online_digital") [exRuleNoKw] =
      [fillnaRule exRuleNoKw] ∧
    find_best_rate_for_card exCardPlain [exRuleNoKw] ("") ("online") ("online_digital") =
      Except.ok (PyFloat.num 5, tier1Desc exRuleNoKw) ∧
    find_best_rate_for_card exCardPlain [exRuleNoKw] ("()") ("online") ("online_digital") =
      Except.ok (PyFloat.num 5, tier1Desc exRuleNoKw) ∧
    find_best_rate_for_card exCardPlain [exRuleNoKw] ("a*") ("online") ("online_digital") =
      Except.ok (PyFloat.num 5, tier1Desc exRuleNoKw) := by
  refine ⟨by decide, by decide, by decide, by decide⟩

/-- Claim C6 (amended): for every nonempty, metacharacter-free merchant
name, a rule whose merchant_keywords is missing or empty never satisfies
the Tier-1 special match: such a name compiles to its literal regex, the
filled-in rule fails the Tier-1 predicate, and no member of the Tier-1
match set has missing or empty keywords.  The empty merchant name, and
regex merchants whose pattern matches the empty string (such as () or a*),
do satisfy the keyword test — see the counterexample. -/
theorem claim_C6_empty_keywords_no_match (m ch cat : String) (hm : m ≠ "")
    (hlit : isLiteralPat m = true) :
    compilePat m = PatRes.ok (mkLit m.data) ∧
    (∀ r : RewardRule,
      r.merchant_keywords = none ∨ r.merchant_keywords = some "" →
      specialPred (mkLit m.data) ch cat (fillnaRule r) = false) ∧
    (∀ cid rules, ∀ s ∈ specialRules cid (mkLit m.data) ch cat rules,
      s.merchant_keywords ≠ none ∧ s.merchant_keywords ≠ some "") := by
  have hdata : m.data ≠ [] := by
    intro hd
    apply hm
    cases m with
    | mk d =>
      have hd2 : d = [] := hd
      subst hd2
      rfl
  have hkw : kwContains (some "") (mkLit m.data) = false := by
    show nullable (mkLit m.data) = false
    rw [nullable_mkLit]
    cases hmd : m.data with
    | nil => exact absurd hmd hdata
    | cons a l => rfl
  refine ⟨compilePat_literal m hlit, ?_, ?_⟩
  · intro r hr
    have hfill : (fillnaRule r).merchant_keywords = some "" := by
      rcases hr with h | h
      · simp [fillnaRule, h]
      · simp [fillnaRule, h]
    unfold specialPred
    rw [hfill, hkw, Bool.and_false]
  · intro cid rules s hs
    unfold specialRules at hs
    obtain ⟨hmem1, hpred⟩ := List.mem_filter.mp hs
    obtain ⟨r0, hr0, hfr⟩ := List.mem_map.mp hmem1
    constructor
    · rw [← hfr]
      simp [fillnaRule]
    · intro hcontra
      unfold specialPred at hpred
      rw [hcontra, hkw, Bool.and_false] at hpred
      exact Bool.false_ne_true hpred

/-- Witness for the amended C6 at a concrete nonempty literal merchant
name: the missing-keywords rule fails the Tier-1 predicate for YouTube. -/
theorem claim_C6_witness :
    ("YouTube" : String) ≠ "" ∧
    isLiteralPat ("YouTube") = true ∧
    specialPred (mkLit ("YouTube").data) ("online") ("online_digital")
      (fillnaRule exRuleNoKw) = false := by
  have h := claim_C6_empty_keywords_no_match ("YouTube") ("online") ("online_digital")
    (by decide) (by decide)
  exact ⟨by decide, by decide, h.2.1 exRuleNoKw (Or.inl rfl)⟩

/-- Claim C9, behaviour at the two error sites: the resolver raises
re.error on a well-formed card and rule sheet when the merchant pattern is
invalid (so errors are not limited to malformed schema), and raises
KeyError — surfaced, not silently defaulted — when the card row lacks the
card_id key. -/
theorem claim_C9_error_scope :
    find_best_rate_for_card exCardPlain exRules ("(") ("online") ("online_digital") =
      Except.error ("re.error: merchant_name is not a valid pattern") ∧
    find_best_rate_for_card exCardNoId exRules ("YouTube") ("online") ("online_digital") =
      Except.error ("KeyError: card_id") := by
  refine ⟨by decide, by decide⟩

/-- Claim C10: a resolution call leaves its inputs unchanged — after the
call the rules collection and the card record hold exactly the values they
held before (the fillna of app.py line 38 lands only in the local frame
copied on line 31), on the raising paths as well — and the returned result
agrees with the pure resolver. -/
theorem claim_C10_no_mutation (s : PStore) (m ch cat : String) :
    (find_best_rate_for_card_frame s m ch cat).2.rules_df = s.rules_df ∧
    (find_best_rate_for_card_frame s m ch cat).2.card_row = s.card_row ∧
    (find_best_rate_for_card_frame s m ch cat).1 =
      find_best_rate_for_card s.card_row s.rules_df m ch cat := by
  cases hcc : s.card_row.card_id with
  | none =>
    simp only [find_best_rate_for_card_frame, find_best_rate_for_card, hcc]
    refine ⟨?_, ?_, ?_⟩ <;> trivial
  | some cid =>
    simp only [find_best_rate_for_card_frame, find_best_rate_for_card, hcc,
      specialRules, generalRules]
    cases compilePat m with
    | error => refine ⟨?_, ?_, ?_⟩ <;> trivial
    | scopeOut => refine ⟨?_, ?_, ?_⟩ <;> trivial
    | ok re =>
      dsimp only
      cases (List.insertionSort priLe ((fillnaKeywords (cardRulesOf cid s.rules_df)).filter
          (specialPred re ch cat))).head? with
      | some b => refine ⟨?_, ?_, ?_⟩ <;> trivial
      | none =>
        cases (List.insertionSort priGe ((fillnaKeywords (cardRulesOf cid s.rules_df)).filter
            (fun r => ruleNameHasGeneral r.rule_name))).head? with
        | some g => refine ⟨?_, ?_, ?_⟩ <;> trivial
        | none =>
          cases s.card_row.general_rate_percent with
          | some v => refine ⟨?_, ?_, ?_⟩ <;> trivial
          | none => refine ⟨?_, ?_, ?_⟩ <;> trivial

/-- A concrete store for the frame witness. -/
def exStore : PStore :=
  { rules_df := exRules, card_row := exCardPlain, card_rules := [] }

/-- Witness for C10 at a concrete store: the call leaves the caller data
untouched and returns the pure-resolver result. -/
theorem claim_C10_witness :
    (find_best_rate_for_card_frame exStore ("YouTube") ("online") ("online_digital")).2.rules_df =
      exStore.rules_df ∧
    (find_best_rate_for_card_frame exStore ("YouTube") ("online") ("online_digital")).2.card_row =
      exStore.card_row ∧
    (find_best_rate_for_card_frame exStore ("YouTube") ("online") ("online_digital")).1 =
      find_best_rate_for_card exStore.card_row exStore.rules_df ("YouTube")
        ("online") ("online_digital") :=
  claim_C10_no_mutation exStore ("YouTube") ("online") ("online_digital")

end CardCashback
